import Mathlib

/-!
# Volume RNA callbacks and transform-conversion records

A shallow embedding of `source/blender/makesrna/intern/rna_volume.c` (the
runtime callbacks of the `grids` collection and of `active_index`, and the
property definitions of `VolumeGrid`, `VolumeGrids` and `Volume`) and of the
`TransIslandData` record of
`source/blender/editors/transform/transform_conversions.h`.

C `int` values are carried as `Int`.  The only arithmetic that can leave the
32-bit range is the iterator's `item++`, which is embedded with explicit
two's-complement wrap-around; `num_grids - 1` is exact for every count
`num_grids >= 0`.
-/

namespace RnaVolume

/-! ## Data model -/

/-- Grid of a volume, restricted to the metadata the RNA getters read through
`BKE_volume_grid_name`, `BKE_volume_grid_channels` and
`BKE_volume_grid_is_loaded`. -/
structure VolumeGrid where
  name : String
  channels : Int
  is_loaded : Bool
  deriving DecidableEq, Repr

/-- DNA `Volume`, restricted to what this file reads and writes: the stored
`active_grid` member and the run-time vector of grids behind
`BKE_volume_num_grids` and `BKE_volume_grid_get`. -/
structure Volume where
  active_grid : Int
  grids : List VolumeGrid
  deriving DecidableEq, Repr

/-- RNA pointer: only the `data` member is used by the callbacks embedded
here. -/
structure PointerRNA (α : Type) where
  data : α
  deriving DecidableEq, Repr

/-- The `internal.count` member of a collection iterator. -/
structure CountIterator where
  ptr : Volume
  item : Int
  deriving DecidableEq, Repr

/-- The members of `CollectionPropertyIterator` touched by the grids
iterator; `count` stands for `internal.count`. -/
structure CollectionPropertyIterator where
  parent : PointerRNA Volume
  count : CountIterator
  valid : Bool
  deriving DecidableEq, Repr

/-! ## Helpers declared outside this file -/

/-- Modelled from the spec: `max_ii` of `BLI_math_base.h` is not among the
sources and the specification does not describe it; it is given its
conventional body `(b < a) ? a : b`. -/
def max_ii (a b : Int) : Int := if b < a then a else b

/-- Modelled from the spec: `min_ii` of `BLI_math_base.h` is not among the
sources and the specification does not describe it; it is given its
conventional body `(a < b) ? a : b`. -/
def min_ii (a b : Int) : Int := if a < b then a else b

/-- Modelled from the spec: `clamp_i` of `BLI_math_base.h` is not among the
sources and the specification does not describe it; it is given its
conventional body `min_ii(max_ii(value, min), max)`. -/
def clamp_i (value lo hi : Int) : Int := min_ii (max_ii value lo) hi

/-- Modelled from the spec: `BKE_volume_num_grids` of `BKE_volume.h` is not
among the sources; it is the number of grids of the volume. -/
def BKE_volume_num_grids (volume : Volume) : Int := (volume.grids.length : Int)

/-- Modelled from the spec: `BKE_volume_grid_get` of `BKE_volume.h` is not
among the sources; it is the grid at position `grid_index`, and no grid
(`NULL`) when the index is negative or past the last grid. -/
def BKE_volume_grid_get (volume : Volume) (grid_index : Int) : Option VolumeGrid :=
  if 0 ≤ grid_index then volume.grids[grid_index.toNat]? else none

/-- Modelled from the spec: `rna_pointer_inherit_refine` of `rna_access.c` is
not among the sources; the pointer it returns carries the given data. -/
def rna_pointer_inherit_refine (_parent : PointerRNA Volume) (data : Option VolumeGrid) :
    PointerRNA (Option VolumeGrid) :=
  { data := data }

/-- Result of `x` stored in a 32-bit signed `int` (two's complement). -/
def wrap_int (x : Int) : Int := (x + 2 ^ 31) % 2 ^ 32 - 2 ^ 31

/-! ## Grids iterator -/

/-- Embedding of `rna_Volume_grids_begin`. -/
def rna_Volume_grids_begin (iter : CollectionPropertyIterator) (ptr : PointerRNA Volume) :
    CollectionPropertyIterator :=
  let volume := ptr.data
  let num_grids := BKE_volume_num_grids volume
  let iter := { iter with count := { iter.count with ptr := volume } }
  let iter := { iter with count := { iter.count with item := 0 } }
  { iter with valid := decide (iter.count.item < num_grids) }

/-- Embedding of `rna_Volume_grids_next`. -/
def rna_Volume_grids_next (iter : CollectionPropertyIterator) : CollectionPropertyIterator :=
  let volume := iter.count.ptr
  let num_grids := BKE_volume_num_grids volume
  let iter := { iter with count := { iter.count with item := wrap_int (iter.count.item + 1) } }
  { iter with valid := decide (iter.count.item < num_grids) }

/-- Embedding of `rna_Volume_grids_end`. -/
def rna_Volume_grids_end (iter : CollectionPropertyIterator) : CollectionPropertyIterator :=
  iter

/-- Embedding of `rna_Volume_grids_get`. -/
def rna_Volume_grids_get (iter : CollectionPropertyIterator) : PointerRNA (Option VolumeGrid) :=
  let volume := iter.count.ptr
  let grid := BKE_volume_grid_get volume iter.count.item
  rna_pointer_inherit_refine iter.parent grid

/-- Embedding of `rna_Volume_grids_length`. -/
def rna_Volume_grids_length (ptr : PointerRNA Volume) : Int :=
  let volume := ptr.data
  BKE_volume_num_grids volume

/-- The iterator after `rna_Volume_grids_begin` followed by `k` calls of
`rna_Volume_grids_next`. -/
def grids_iter_after (iter : CollectionPropertyIterator) (ptr : PointerRNA Volume) :
    Nat → CollectionPropertyIterator
  | 0 => rna_Volume_grids_begin iter ptr
  | k + 1 => rna_Volume_grids_next (grids_iter_after iter ptr k)

/-! ## Active grid -/

/-- Embedding of `rna_VolumeGrids_active_grid_index_range`; the result is the
pair written to `*min` and `*max`. -/
def rna_VolumeGrids_active_grid_index_range (ptr : PointerRNA Volume) : Int × Int :=
  let volume := ptr.data
  let num_grids := BKE_volume_num_grids volume
  (0, max_ii 0 (num_grids - 1))

/-- Embedding of `rna_VolumeGrids_active_grid_index_get`. -/
def rna_VolumeGrids_active_grid_index_get (ptr : PointerRNA Volume) : Int :=
  let volume := ptr.data
  let num_grids := BKE_volume_num_grids volume
  clamp_i volume.active_grid 0 (max_ii (num_grids - 1) 0)

/-- Embedding of `rna_VolumeGrids_active_grid_index_set`; the result is the
volume behind `ptr` after the store. -/
def rna_VolumeGrids_active_grid_index_set (ptr : PointerRNA Volume) (value : Int) : Volume :=
  let volume := ptr.data
  { volume with active_grid := value }

end RnaVolume

/-! ## The island record of the transform conversions -/

namespace TransformConversions

/-- Embedding of `struct TransIslandData`; `F` stands for C `float`. -/
structure TransIslandData (F : Type) where
  co : Fin 3 → F
  axismtx : Fin 3 → Fin 3 → F

/-- The members of an island record, read in declaration order. -/
def TransIslandData.members {F : Type} (island : TransIslandData F) :
    (Fin 3 → F) × (Fin 3 → Fin 3 → F) :=
  (island.co, island.axismtx)

end TransformConversions

/-! ## Property definitions of rna_volume.c -/

namespace RnaDefine

inductive PropertyType where
  | PROP_BOOLEAN | PROP_INT | PROP_FLOAT | PROP_STRING | PROP_ENUM | PROP_POINTER
  | PROP_COLLECTION
  deriving DecidableEq, Repr

inductive PropertySubType where
  | PROP_NONE | PROP_FILEPATH | PROP_UNSIGNED | PROP_MATRIX
  deriving DecidableEq, Repr

/-- Constants and tables of `RNA_types.h`, `RNA_define.c` and the icon
header that rna_volume.c names but does not define. -/
structure Constants where
  PROP_EDITABLE : Nat
  FUNC_USE_SELF_ID : Nat
  FUNC_USE_MAIN : Nat
  ICON_VOLUME_DATA : Nat
  rna_matrix_dimsize_4x4 : List Nat
  default_flag : PropertyType → PropertySubType → Nat

/-- Property under definition. The callback members hold the names passed
to the `RNA_def_property_*_funcs` calls, `none` standing for `NULL`. -/
structure PropertyRNA where
  identifier : String
  type : PropertyType
  subtype : PropertySubType
  flag : Nat
  name : String := ""
  description : String := ""
  arraydimension : Nat := 0
  arraylength : List Nat := []
  get : Option String := none
  length : Option String := none
  set : Option String := none
  range : Option String := none
  begin : Option String := none
  next : Option String := none
  end_ : Option String := none
  lookupint : Option String := none
  lookupstring : Option String := none
  assignint : Option String := none
  update : Option String := none
  noteflag : Nat := 0
  sdna_structname : Option String := none
  sdna_name : Option String := none
  sdna_lengthname : Option String := none
  struct_type : Option String := none
  srna : Option String := none
  default_bool : Bool := false

/-- Function under definition. -/
structure FunctionRNA where
  identifier : String
  call : String
  description : String := ""
  flag : Nat := 0
  params : List PropertyRNA := []
  c_ret : Option String := none

/-- Struct under definition. -/
structure StructRNA where
  identifier : String
  base : Option String
  name : String := ""
  description : String := ""
  icon : Option Nat := none
  sdna : Option String := none
  properties : List PropertyRNA := []
  functions : List FunctionRNA := []

/-- The registry all definitions are added to. -/
structure BlenderRNA where
  structs : List StructRNA := []

/-- Pointer to a struct under definition. A struct is told from the others
of the registry by its identifier. -/
structure StructHandle where
  identifier : String

/-- Pointer to a property under definition: the struct it was added to and
its own identifier. -/
structure PropHandle where
  srna : StructHandle
  identifier : String

/-- Pointer to a function under definition: the struct it was added to and
its own identifier. -/
structure FuncHandle where
  srna : StructHandle
  identifier : String

/-- Pointer to a parameter of a function under definition. -/
structure ParmHandle where
  func : FuncHandle
  identifier : String

/-- Update through a struct pointer. -/
def onStruct (brna : BlenderRNA) (srna : StructHandle) (f : StructRNA → StructRNA) :
    BlenderRNA :=
  { brna with
    structs := brna.structs.map fun s => if s.identifier = srna.identifier then f s else s }

/-- Update through a property pointer. -/
def onProp (brna : BlenderRNA) (prop : PropHandle) (f : PropertyRNA → PropertyRNA) :
    BlenderRNA :=
  onStruct brna prop.srna fun s =>
    { s with
      properties := s.properties.map fun p => if p.identifier = prop.identifier then f p else p }

/-- Update through a function pointer. -/
def onFunc (brna : BlenderRNA) (func : FuncHandle) (f : FunctionRNA → FunctionRNA) :
    BlenderRNA :=
  onStruct brna func.srna fun s =>
    { s with
      functions := s.functions.map fun g => if g.identifier = func.identifier then f g else g }

/-! ### The definition interface of RNA_define.c

The bodies of the `RNA_def_*` functions are not among the sources. Each is
embedded as the store its name and arguments describe; a `NULL` callback
argument leaves the member as it is. -/

/-- Modelled from the spec: `RNA_def_struct` (RNA_define.c, absent) adds a
struct with the given identifier and base and returns a pointer to it. -/
def RNA_def_struct (brna : BlenderRNA) (identifier : String) (base : Option String) :
    BlenderRNA × StructHandle :=
  ({ brna with structs := brna.structs ++ [{ identifier := identifier, base := base }] },
    { identifier := identifier })

/-- Modelled from the spec: `RNA_def_struct_ui_text` (RNA_define.c, absent)
stores the user-interface name and description. -/
def RNA_def_struct_ui_text (brna : BlenderRNA) (srna : StructHandle) (name description : String) :
    BlenderRNA :=
  onStruct brna srna fun s => { s with name := name, description := description }

/-- Modelled from the spec: `RNA_def_struct_ui_icon` (RNA_define.c, absent)
stores the icon. -/
def RNA_def_struct_ui_icon (brna : BlenderRNA) (srna : StructHandle) (icon : Nat) : BlenderRNA :=
  onStruct brna srna fun s => { s with icon := some icon }

/-- Modelled from the spec: `RNA_def_struct_sdna` (RNA_define.c, absent)
stores the DNA struct name. -/
def RNA_def_struct_sdna (brna : BlenderRNA) (srna : StructHandle) (structname : String) : BlenderRNA :=
  onStruct brna srna fun s => { s with sdna := some structname }

/-- Modelled from the spec: `RNA_def_property` (RNA_define.c, absent) adds to
the struct a property of the given type, carrying the flags that type starts
with, and returns a pointer to it. -/
def RNA_def_property (c : Constants) (brna : BlenderRNA) (srna : StructHandle) (identifier : String)
    (type : PropertyType) (subtype : PropertySubType) : BlenderRNA × PropHandle :=
  (onStruct brna srna fun s =>
      { s with properties := s.properties ++
          [{ identifier := identifier, type := type, subtype := subtype,
             flag := c.default_flag type subtype }] },
    { srna := srna, identifier := identifier })

/-- Modelled from the spec: `RNA_def_property_clear_flag` (RNA_define.c,
absent), `prop->flag &= ~flag`. -/
def RNA_def_property_clear_flag (brna : BlenderRNA) (prop : PropHandle) (flag : Nat) :
    BlenderRNA :=
  onProp brna prop fun p => { p with flag := Nat.ldiff p.flag flag }

/-- Modelled from the spec: `RNA_def_property_string_funcs` (RNA_define.c,
absent) stores the callbacks that are not `NULL`. -/
def RNA_def_property_string_funcs (brna : BlenderRNA) (prop : PropHandle)
    (get length set : Option String) : BlenderRNA :=
  onProp brna prop fun p =>
    { p with get := get <|> p.get, length := length <|> p.length, set := set <|> p.set }

/-- Modelled from the spec: `RNA_def_property_int_funcs` (RNA_define.c,
absent) stores the callbacks that are not `NULL`. -/
def RNA_def_property_int_funcs (brna : BlenderRNA) (prop : PropHandle)
    (get set range : Option String) : BlenderRNA :=
  onProp brna prop fun p =>
    { p with get := get <|> p.get, set := set <|> p.set, range := range <|> p.range }

/-- Modelled from the spec: `RNA_def_property_float_funcs` (RNA_define.c,
absent) stores the callbacks that are not `NULL`. -/
def RNA_def_property_float_funcs (brna : BlenderRNA) (prop : PropHandle)
    (get set range : Option String) : BlenderRNA :=
  onProp brna prop fun p =>
    { p with get := get <|> p.get, set := set <|> p.set, range := range <|> p.range }

/-- Modelled from the spec: `RNA_def_property_boolean_funcs` (RNA_define.c,
absent) stores the callbacks that are not `NULL`. -/
def RNA_def_property_boolean_funcs (brna : BlenderRNA) (prop : PropHandle)
    (get set : Option String) : BlenderRNA :=
  onProp brna prop fun p => { p with get := get <|> p.get, set := set <|> p.set }

/-- Modelled from the spec: `RNA_def_property_collection_funcs`
(RNA_define.c, absent) stores the callbacks that are not `NULL`. -/
def RNA_def_property_collection_funcs (brna : BlenderRNA) (prop : PropHandle)
    (begin next end_ get length lookupint lookupstring assignint : Option String) :
    BlenderRNA :=
  onProp brna prop fun p =>
    { p with begin := begin <|> p.begin, next := next <|> p.next, end_ := end_ <|> p.end_,
             get := get <|> p.get, length := length <|> p.length,
             lookupint := lookupint <|> p.lookupint,
             lookupstring := lookupstring <|> p.lookupstring,
             assignint := assignint <|> p.assignint }

/-- Modelled from the spec: `RNA_def_property_ui_text` (RNA_define.c, absent)
stores the user-interface name and description. -/
def RNA_def_property_ui_text (brna : BlenderRNA) (prop : PropHandle)
    (name description : String) : BlenderRNA :=
  onProp brna prop fun p => { p with name := name, description := description }

/-- Modelled from the spec: `RNA_def_property_multi_array` (RNA_define.c,
absent) stores the number of dimensions and their sizes. -/
def RNA_def_property_multi_array (brna : BlenderRNA) (prop : PropHandle) (dimension : Nat)
    (length : List Nat) : BlenderRNA :=
  onProp brna prop fun p => { p with arraydimension := dimension, arraylength := length }

/-- Modelled from the spec: `RNA_def_property_update` (RNA_define.c, absent)
stores the notifier flag and the update callback. -/
def RNA_def_property_update (brna : BlenderRNA) (prop : PropHandle) (noteflag : Nat)
    (func : Option String) : BlenderRNA :=
  onProp brna prop fun p => { p with noteflag := noteflag, update := func }

/-- Modelled from the spec: `RNA_def_property_pointer_sdna` (RNA_define.c,
absent) stores the DNA struct and member names. -/
def RNA_def_property_pointer_sdna (brna : BlenderRNA) (prop : PropHandle)
    (structname : Option String) (propname : String) : BlenderRNA :=
  onProp brna prop fun p => { p with sdna_structname := structname, sdna_name := some propname }

/-- Modelled from the spec: `RNA_def_property_collection_sdna` (RNA_define.c,
absent) stores the DNA struct, member and length-member names. -/
def RNA_def_property_collection_sdna (brna : BlenderRNA) (prop : PropHandle)
    (structname : Option String) (propname : String) (lengthpropname : Option String) :
    BlenderRNA :=
  onProp brna prop fun p =>
    { p with sdna_structname := structname, sdna_name := some propname,
             sdna_lengthname := lengthpropname }

/-- Modelled from the spec: `RNA_def_property_struct_type` (RNA_define.c,
absent) stores the struct type of the items. -/
def RNA_def_property_struct_type (brna : BlenderRNA) (prop : PropHandle) (type : String) :
    BlenderRNA :=
  onProp brna prop fun p => { p with struct_type := some type }

/-- Modelled from the spec: `RNA_def_property_srna` (RNA_define.c, absent)
stores the struct type of the collection itself. -/
def RNA_def_property_srna (brna : BlenderRNA) (prop : PropHandle) (type : String) :
    BlenderRNA :=
  onProp brna prop fun p => { p with srna := some type }

/-- Modelled from the spec: `RNA_def_function` (RNA_define.c, absent) adds a
function to the struct and returns a pointer to it. -/
def RNA_def_function (brna : BlenderRNA) (srna : StructHandle) (identifier call : String) :
    BlenderRNA × FuncHandle :=
  (onStruct brna srna fun s =>
      { s with functions := s.functions ++ [{ identifier := identifier, call := call }] },
    { srna := srna, identifier := identifier })

/-- Modelled from the spec: `RNA_def_function_ui_description` (RNA_define.c,
absent) stores the description. -/
def RNA_def_function_ui_description (brna : BlenderRNA) (func : FuncHandle)
    (description : String) : BlenderRNA :=
  onFunc brna func fun f => { f with description := description }

/-- Modelled from the spec: `RNA_def_function_flag` (RNA_define.c, absent),
`func->flag |= flag`. -/
def RNA_def_function_flag (brna : BlenderRNA) (func : FuncHandle) (flag : Nat) : BlenderRNA :=
  onFunc brna func fun f => { f with flag := f.flag ||| flag }

/-- Modelled from the spec: `RNA_def_boolean` (RNA_define.c, absent) adds a
boolean parameter with the given default and texts to the function and
returns a pointer to it. -/
def RNA_def_boolean (c : Constants) (brna : BlenderRNA) (func : FuncHandle)
    (identifier : String) (default_value : Bool) (ui_name ui_description : String) :
    BlenderRNA × ParmHandle :=
  (onFunc brna func fun f =>
      { f with params := f.params ++
          [{ identifier := identifier, type := PropertyType.PROP_BOOLEAN,
             subtype := PropertySubType.PROP_NONE,
             flag := c.default_flag PropertyType.PROP_BOOLEAN PropertySubType.PROP_NONE,
             name := ui_name, description := ui_description,
             default_bool := default_value }] },
    { func := func, identifier := identifier })

/-- Modelled from the spec: `RNA_def_function_return` (RNA_define.c, absent)
records the parameter as the return value. -/
def RNA_def_function_return (brna : BlenderRNA) (func : FuncHandle) (parm : ParmHandle) :
    BlenderRNA :=
  onFunc brna func fun f => { f with c_ret := some parm.identifier }

/-- Modelled from the spec: `rna_def_animdata_common` (rna_animation.c,
absent) works on the struct it is handed; what it does to it is the
parameter `animdata`. -/
def rna_def_animdata_common (animdata : StructRNA → StructRNA) (brna : BlenderRNA)
    (srna : StructHandle) : BlenderRNA :=
  onStruct brna srna animdata

open PropertyType PropertySubType in
/-- Embedding of `rna_def_volume_grid`. -/
def rna_def_volume_grid (c : Constants) (brna : BlenderRNA) : BlenderRNA :=
  let made := RNA_def_struct brna "VolumeGrid" none
  let brna := made.1
  let srna := made.2
  let brna := RNA_def_struct_ui_text brna srna "Volume Grid" "3D volume grid"
  let brna := RNA_def_struct_ui_icon brna srna c.ICON_VOLUME_DATA

  let made := RNA_def_property c brna srna "name" PROP_STRING PROP_NONE
  let brna := made.1
  let prop := made.2
  let brna := RNA_def_property_clear_flag brna prop c.PROP_EDITABLE
  let brna := RNA_def_property_string_funcs brna prop
    (some "rna_VolumeGrid_name_get") (some "rna_VolumeGrid_name_length") none
  let brna := RNA_def_property_ui_text brna prop "Name" "Volume grid name"

  let made := RNA_def_property c brna srna "channels" PROP_INT PROP_UNSIGNED
  let brna := made.1
  let prop := made.2
  let brna := RNA_def_property_clear_flag brna prop c.PROP_EDITABLE
  let brna := RNA_def_property_int_funcs brna prop (some "rna_VolumeGrid_channels_get") none none
  let brna := RNA_def_property_ui_text brna prop "Channels" "Number of channels in voxel data"

  let made := RNA_def_property c brna srna "matrix_object" PROP_FLOAT PROP_MATRIX
  let brna := made.1
  let prop := made.2
  let brna := RNA_def_property_clear_flag brna prop c.PROP_EDITABLE
  let brna := RNA_def_property_multi_array brna prop 2 c.rna_matrix_dimsize_4x4
  let brna := RNA_def_property_float_funcs brna prop
    (some "rna_VolumeGrid_matrix_object_get") none none
  let brna := RNA_def_property_ui_text brna prop
    "Matrix Object" "Transformation from index space to world space"

  let made := RNA_def_property c brna srna "is_loaded" PROP_BOOLEAN PROP_NONE
  let brna := made.1
  let prop := made.2
  let brna := RNA_def_property_clear_flag brna prop c.PROP_EDITABLE
  let brna := RNA_def_property_boolean_funcs brna prop (some "rna_VolumeGrid_is_loaded_get") none
  let brna := RNA_def_property_ui_text brna prop "Is Loaded" "Grid tree is loaded in memory"

  let made := RNA_def_function brna srna "load" "rna_VolumeGrid_load"
  let brna := made.1
  let func := made.2
  let brna := RNA_def_function_ui_description brna func "Load grid tree from file"
  let brna := RNA_def_function_flag brna func c.FUNC_USE_SELF_ID
  let made := RNA_def_boolean c brna func "success" false ""
    "True if grid tree was successfully loaded"
  let brna := made.1
  let parm := made.2
  let brna := RNA_def_function_return brna func parm

  let made := RNA_def_function brna srna "unload" "BKE_volume_grid_unload"
  let brna := made.1
  let func := made.2
  let brna := RNA_def_function_ui_description brna func
    "Unload grid tree and voxel data from memory, leaving only metadata"
  brna

open PropertyType PropertySubType in
/-- Embedding of `rna_def_volume_grids`. -/
def rna_def_volume_grids (c : Constants) (brna : BlenderRNA) (cprop : PropHandle) :
    BlenderRNA :=
  let brna := RNA_def_property_srna brna cprop "VolumeGrids"
  let made := RNA_def_struct brna "VolumeGrids" none
  let brna := made.1
  let srna := made.2
  let brna := RNA_def_struct_sdna brna srna "Volume"
  let brna := RNA_def_struct_ui_text brna srna "Volume Grids" "3D volume grids"

  let made := RNA_def_property c brna srna "active_index" PROP_INT PROP_UNSIGNED
  let brna := made.1
  let prop := made.2
  let brna := RNA_def_property_int_funcs brna prop
    (some "rna_VolumeGrids_active_grid_index_get")
    (some "rna_VolumeGrids_active_grid_index_set")
    (some "rna_VolumeGrids_active_grid_index_range")
  let brna := RNA_def_property_ui_text brna prop
    "Active Grid Index" "Index of active volume grid"

  let made := RNA_def_property c brna srna "error_message" PROP_STRING PROP_NONE
  let brna := made.1
  let prop := made.2
  let brna := RNA_def_property_clear_flag brna prop c.PROP_EDITABLE
  let brna := RNA_def_property_string_funcs brna prop
    (some "rna_VolumeGrids_error_message_get") (some "rna_VolumeGrids_error_message_length")
    none
  let brna := RNA_def_property_ui_text brna prop
    "Error Message" "If loading grids failed, error message with details"

  let made := RNA_def_property c brna srna "is_loaded" PROP_BOOLEAN PROP_NONE
  let brna := made.1
  let prop := made.2
  let brna := RNA_def_property_clear_flag brna prop c.PROP_EDITABLE
  let brna := RNA_def_property_boolean_funcs brna prop
    (some "rna_VolumeGrids_is_loaded_get") none
  let brna := RNA_def_property_ui_text brna prop
    "Is Loaded" "List of grids and metadata are loaded in memory"

  let made := RNA_def_function brna srna "load" "BKE_volume_load"
  let brna := made.1
  let func := made.2
  let brna := RNA_def_function_ui_description brna func
    "Load list of grids and metadata from file"
  let brna := RNA_def_function_flag brna func c.FUNC_USE_MAIN
  let made := RNA_def_boolean c brna func "success" false ""
    "True if grid list was successfully loaded"
  let brna := made.1
  let parm := made.2
  let brna := RNA_def_function_return brna func parm

  let made := RNA_def_function brna srna "unload" "BKE_volume_unload"
  let brna := made.1
  let func := made.2
  let brna := RNA_def_function_ui_description brna func
    "Unload all grid and voxel data from memory"
  brna

open PropertyType PropertySubType in
/-- Embedding of `rna_def_volume`. -/
def rna_def_volume (c : Constants) (animdata : StructRNA → StructRNA) (brna : BlenderRNA) :
    BlenderRNA :=
  let made := RNA_def_struct brna "Volume" (some "ID")
  let brna := made.1
  let srna := made.2
  let brna := RNA_def_struct_ui_text brna srna "Volume" "Volume data-block for 3D volume grids"
  let brna := RNA_def_struct_ui_icon brna srna c.ICON_VOLUME_DATA

  let made := RNA_def_property c brna srna "filepath" PROP_STRING PROP_FILEPATH
  let brna := made.1
  let prop := made.2
  let brna := RNA_def_property_ui_text brna prop
    "File Path" "Volume sample file used by this Volume data-block"
  let brna := RNA_def_property_update brna prop 0 (some "rna_Volume_update_filepath")

  let made := RNA_def_property c brna srna "packed_file" PROP_POINTER PROP_NONE
  let brna := made.1
  let prop := made.2
  let brna := RNA_def_property_pointer_sdna brna prop none "packedfile"
  let brna := RNA_def_property_ui_text brna prop "Packed File" ""

  let made := RNA_def_property c brna srna "grids" PROP_COLLECTION PROP_NONE
  let brna := made.1
  let prop := made.2
  let brna := RNA_def_property_struct_type brna prop "VolumeGrid"
  let brna := RNA_def_property_ui_text brna prop "Grids" "3D volume grids"
  let brna := RNA_def_property_collection_funcs brna prop
    (some "rna_Volume_grids_begin")
    (some "rna_Volume_grids_next")
    (some "rna_Volume_grids_end")
    (some "rna_Volume_grids_get")
    (some "rna_Volume_grids_length")
    none
    none
    none
  let brna := rna_def_volume_grids c brna prop

  let made := RNA_def_property c brna srna "materials" PROP_COLLECTION PROP_NONE
  let brna := made.1
  let prop := made.2
  let brna := RNA_def_property_collection_sdna brna prop none "mat" (some "totcol")
  let brna := RNA_def_property_struct_type brna prop "Material"
  let brna := RNA_def_property_ui_text brna prop "Materials" ""
  let brna := RNA_def_property_srna brna prop "IDMaterials"
  let brna := RNA_def_property_collection_funcs brna prop
    none none none none none none none (some "rna_IDMaterials_assign_int")

  let brna := rna_def_animdata_common animdata brna srna
  brna

/-- Embedding of `RNA_def_volume`. -/
def RNA_def_volume (c : Constants) (animdata : StructRNA → StructRNA) (brna : BlenderRNA) :
    BlenderRNA :=
  let brna := rna_def_volume_grid c brna
  let brna := rna_def_volume c animdata brna
  brna

/-- Stand-in for `rna_def_animdata_common` in the witness: it adds an
`animation_data` pointer property bound to the DNA member `adt`. -/
def animdata_example (c : Constants) (s : StructRNA) : StructRNA :=
  { s with properties := s.properties ++
      [{ identifier := "animation_data", type := PropertyType.PROP_POINTER,
         subtype := PropertySubType.PROP_NONE,
         flag := c.default_flag PropertyType.PROP_POINTER PropertySubType.PROP_NONE,
         sdna_name := some "adt" }] }

/-- Constants used in the witness. -/
def constants_example : Constants :=
  { PROP_EDITABLE := 1, FUNC_USE_SELF_ID := 2048, FUNC_USE_MAIN := 4, ICON_VOLUME_DATA := 0,
    rna_matrix_dimsize_4x4 := [4, 4], default_flag := fun _ _ => 5 }

/-- A property is exposed read-only: the editable flag is cleared, a getter
is registered and no setter is. -/
def PropertyRNA.readOnly (c : Constants) (p : PropertyRNA) : Prop :=
  p.flag &&& c.PROP_EDITABLE = 0 ∧ p.get.isSome = true ∧ p.set = none

end RnaDefine

/-! ## Properties of the active-grid callbacks -/

namespace RnaVolume

theorem max_ii_eq_max (a b : Int) : max_ii a b = max a b := by
  unfold max_ii
  split <;> omega

theorem clamp_i_eq (value lo hi : Int) : clamp_i value lo hi = min (max value lo) hi := by
  unfold clamp_i min_ii
  rw [max_ii_eq_max]
  split <;> omega

theorem BKE_volume_num_grids_nonneg (volume : Volume) : 0 ≤ BKE_volume_num_grids volume := by
  unfold BKE_volume_num_grids
  omega

theorem BKE_volume_grid_get_isSome (volume : Volume) (i : Int) (h0 : 0 ≤ i)
    (h1 : i < BKE_volume_num_grids volume) : (BKE_volume_grid_get volume i).isSome = true := by
  unfold BKE_volume_num_grids at h1
  have hlt : i.toNat < volume.grids.length := by omega
  simp [BKE_volume_grid_get, h0, List.getElem?_eq_getElem hlt]

theorem BKE_volume_grid_get_none (volume : Volume) (i : Int)
    (h : BKE_volume_num_grids volume ≤ i) : BKE_volume_grid_get volume i = none := by
  unfold BKE_volume_num_grids at h
  have hle : volume.grids.length ≤ i.toNat := by omega
  simp [BKE_volume_grid_get, List.getElem?_eq_none hle]

/-- C6: for a volume with at least one grid and any stored `active_grid`, the
index `rna_VolumeGrids_active_grid_index_get` returns is at least 0 and below
the number of grids, a grid exists at it, and it is the stored value itself
whenever that value is at least 0 and below the number of grids. -/
theorem active_grid_index_get_existing_grid (ptr : PointerRNA Volume)
    (h : 1 ≤ BKE_volume_num_grids ptr.data) :
    0 ≤ rna_VolumeGrids_active_grid_index_get ptr ∧
    rna_VolumeGrids_active_grid_index_get ptr < BKE_volume_num_grids ptr.data ∧
    (BKE_volume_grid_get ptr.data (rna_VolumeGrids_active_grid_index_get ptr)).isSome = true ∧
    (0 ≤ ptr.data.active_grid → ptr.data.active_grid < BKE_volume_num_grids ptr.data →
      rna_VolumeGrids_active_grid_index_get ptr = ptr.data.active_grid) := by
  have key : rna_VolumeGrids_active_grid_index_get ptr =
      min (max ptr.data.active_grid 0) (BKE_volume_num_grids ptr.data - 1) := by
    simp only [rna_VolumeGrids_active_grid_index_get, clamp_i_eq, max_ii_eq_max]
    congr 1
    omega
  have h0 : 0 ≤ rna_VolumeGrids_active_grid_index_get ptr := by rw [key]; omega
  have h1 : rna_VolumeGrids_active_grid_index_get ptr < BKE_volume_num_grids ptr.data := by
    rw [key]; omega
  refine ⟨h0, h1, BKE_volume_grid_get_isSome _ _ h0 h1, ?_⟩
  intro ha hb
  rw [key]
  omega

/-- Witness for C6 with two grids and a stored index past the last grid. -/
theorem active_grid_index_get_existing_grid_witness :
    1 ≤ BKE_volume_num_grids ⟨7, [⟨"density", 1, true⟩, ⟨"velocity", 3, false⟩]⟩ ∧
    rna_VolumeGrids_active_grid_index_get
        ⟨⟨7, [⟨"density", 1, true⟩, ⟨"velocity", 3, false⟩]⟩⟩ = 1 ∧
    (BKE_volume_grid_get ⟨7, [⟨"density", 1, true⟩, ⟨"velocity", 3, false⟩]⟩
      (rna_VolumeGrids_active_grid_index_get
        ⟨⟨7, [⟨"density", 1, true⟩, ⟨"velocity", 3, false⟩]⟩⟩)).isSome = true :=
  ⟨by decide, by decide,
   (active_grid_index_get_existing_grid
      ⟨⟨7, [⟨"density", 1, true⟩, ⟨"velocity", 3, false⟩]⟩⟩ (by decide)).2.2.1⟩

/-- C9: for every volume the value `rna_VolumeGrids_active_grid_index_get`
returns lies between the `min` and `max` that
`rna_VolumeGrids_active_grid_index_range` reports, and `min <= max`; with no
grids the range is `[0, 0]` and the getter returns 0, where no grid exists. -/
theorem active_grid_index_get_within_range (ptr : PointerRNA Volume) :
    (rna_VolumeGrids_active_grid_index_range ptr).1 ≤ rna_VolumeGrids_active_grid_index_get ptr ∧
    rna_VolumeGrids_active_grid_index_get ptr ≤ (rna_VolumeGrids_active_grid_index_range ptr).2 ∧
    (rna_VolumeGrids_active_grid_index_range ptr).1 ≤
      (rna_VolumeGrids_active_grid_index_range ptr).2 ∧
    (BKE_volume_num_grids ptr.data = 0 →
      rna_VolumeGrids_active_grid_index_range ptr = (0, 0) ∧
      rna_VolumeGrids_active_grid_index_get ptr = 0 ∧
      BKE_volume_grid_get ptr.data (rna_VolumeGrids_active_grid_index_get ptr) = none) := by
  have hn := BKE_volume_num_grids_nonneg ptr.data
  have key : rna_VolumeGrids_active_grid_index_get ptr =
      min (max ptr.data.active_grid 0) (max (BKE_volume_num_grids ptr.data - 1) 0) := by
    simp only [rna_VolumeGrids_active_grid_index_get, clamp_i_eq, max_ii_eq_max]
  have hr : rna_VolumeGrids_active_grid_index_range ptr =
      (0, max 0 (BKE_volume_num_grids ptr.data - 1)) := by
    simp only [rna_VolumeGrids_active_grid_index_range, max_ii_eq_max]
  refine ⟨?_, ?_, ?_, ?_⟩
  · rw [hr, key]; simp only; omega
  · rw [hr, key]; simp only; omega
  · rw [hr]; simp only; omega
  · intro hz
    have hg : rna_VolumeGrids_active_grid_index_get ptr = 0 := by rw [key, hz]; omega
    refine ⟨?_, hg, ?_⟩
    · rw [hr, hz]; rfl
    · apply BKE_volume_grid_get_none
      rw [hg, hz]

/-- Witness for C9 at a volume without grids whose stored index is 3. -/
theorem active_grid_index_get_within_range_witness :
    BKE_volume_num_grids ⟨3, []⟩ = 0 ∧
    (rna_VolumeGrids_active_grid_index_range ⟨⟨3, []⟩⟩ = (0, 0) ∧
      rna_VolumeGrids_active_grid_index_get ⟨⟨3, []⟩⟩ = 0 ∧
      BKE_volume_grid_get ⟨3, []⟩ (rna_VolumeGrids_active_grid_index_get ⟨⟨3, []⟩⟩) = none) :=
  ⟨by decide, (active_grid_index_get_within_range ⟨⟨3, []⟩⟩).2.2.2 (by decide)⟩

/-! ## Properties of the grids iterator -/

theorem wrap_int_of_lt (x : Int) (h0 : 0 ≤ x) (h1 : x < 2 ^ 31) : wrap_int x = x := by
  unfold wrap_int
  omega

theorem grids_iter_after_ptr (iter : CollectionPropertyIterator) (ptr : PointerRNA Volume)
    (k : Nat) : (grids_iter_after iter ptr k).count.ptr = ptr.data := by
  induction k with
  | zero => rfl
  | succ k ih => simpa [grids_iter_after, rna_Volume_grids_next] using ih

theorem grids_iter_after_item (iter : CollectionPropertyIterator) (ptr : PointerRNA Volume)
    (k : Nat) (hk : k < 2 ^ 31) : (grids_iter_after iter ptr k).count.item = (k : Int) := by
  induction k with
  | zero => rfl
  | succ k ih =>
    have hk1 : k < 2 ^ 31 := by omega
    have hw : wrap_int ((k : Int) + 1) = (k : Int) + 1 := wrap_int_of_lt _ (by omega) (by omega)
    simp only [grids_iter_after, rna_Volume_grids_next, ih hk1, hw]
    push_cast
    rfl

theorem grids_iter_after_valid (iter : CollectionPropertyIterator) (ptr : PointerRNA Volume)
    (k : Nat) (hk : k < 2 ^ 31) :
    (grids_iter_after iter ptr k).valid = decide ((k : Int) < BKE_volume_num_grids ptr.data) := by
  cases k with
  | zero => rfl
  | succ k =>
    have hk1 : k < 2 ^ 31 := by omega
    have hw : wrap_int ((k : Int) + 1) = (k : Int) + 1 := wrap_int_of_lt _ (by omega) (by omega)
    simp only [grids_iter_after, rna_Volume_grids_next, grids_iter_after_item iter ptr k hk1,
      grids_iter_after_ptr, hw]
    push_cast
    rfl

theorem length_filter_range_lt (n m : Nat) (h : n ≤ m) :
    ((List.range m).filter fun j => decide (j < n)).length = n := by
  induction m with
  | zero =>
    have : n = 0 := by omega
    subst this
    rfl
  | succ m ih =>
    rw [List.range_succ, List.filter_append, List.length_append]
    by_cases hn : n ≤ m
    · have hlt : ¬ m < n := by omega
      simp [ih hn, hlt]
    · have hm : n = m + 1 := by omega
      subst hm
      have hall : ((List.range m).filter fun j => decide (j < m + 1)) = List.range m := by
        apply List.filter_eq_self.mpr
        intro a ha
        have := List.mem_range.mp ha
        simp
        omega
      simp [hall]

/-- C8: after `rna_Volume_grids_begin` followed by `k` calls of
`rna_Volume_grids_next` (`k` a value the `int` item can hold) the iterator's
item is `k`, it still points at the volume, and it is valid exactly when `k`
is below the number of grids; a valid iterator makes `rna_Volume_grids_get`
return the grid at position `k`, which exists; with no grids the iterator is
invalid right after begin; and the valid positions are as many as
`rna_Volume_grids_length` reports. -/
theorem grids_iterator_enumerates (iter : CollectionPropertyIterator) (ptr : PointerRNA Volume)
    (k : Nat) (hk : k < 2 ^ 31) :
    (grids_iter_after iter ptr k).count.item = (k : Int) ∧
    (grids_iter_after iter ptr k).count.ptr = ptr.data ∧
    ((grids_iter_after iter ptr k).valid = true ↔ (k : Int) < BKE_volume_num_grids ptr.data) ∧
    ((grids_iter_after iter ptr k).valid = true →
      (grids_iter_after iter ptr k).count.item < BKE_volume_num_grids ptr.data ∧
      (rna_Volume_grids_get (grids_iter_after iter ptr k)).data = ptr.data.grids[k]? ∧
      (rna_Volume_grids_get (grids_iter_after iter ptr k)).data.isSome = true) ∧
    (BKE_volume_num_grids ptr.data = 0 → (rna_Volume_grids_begin iter ptr).valid = false) ∧
    (∀ m : Nat, ptr.data.grids.length ≤ m → m ≤ 2 ^ 31 →
      ((((List.range m).filter fun j => (grids_iter_after iter ptr j).valid).length : Nat) : Int)
        = rna_Volume_grids_length ptr) := by
  have hitem := grids_iter_after_item iter ptr k hk
  have hptr := grids_iter_after_ptr iter ptr k
  have hvalid := grids_iter_after_valid iter ptr k hk
  refine ⟨hitem, hptr, ?_, ?_, ?_, ?_⟩
  · rw [hvalid]
    simp
  · intro hv
    rw [hvalid] at hv
    have hlt : (k : Int) < BKE_volume_num_grids ptr.data := by simpa using hv
    have hget : (rna_Volume_grids_get (grids_iter_after iter ptr k)).data = ptr.data.grids[k]? := by
      simp [rna_Volume_grids_get, rna_pointer_inherit_refine, BKE_volume_grid_get, hitem, hptr]
    refine ⟨by rw [hitem]; exact hlt, hget, ?_⟩
    have hsome := BKE_volume_grid_get_isSome ptr.data (k : Int) (by omega) hlt
    rw [hget]
    simpa [BKE_volume_grid_get] using hsome
  · intro hz
    simp [rna_Volume_grids_begin, hz]
  · intro m hnm hm
    have hfilter : ((List.range m).filter fun j => (grids_iter_after iter ptr j).valid) =
        ((List.range m).filter fun j => decide (j < ptr.data.grids.length)) := by
      apply List.filter_congr
      intro j hj
      have hjm := List.mem_range.mp hj
      rw [grids_iter_after_valid iter ptr j (by omega)]
      simp [BKE_volume_num_grids]
    rw [hfilter, length_filter_range_lt _ _ hnm]
    rfl

/-- Witness for C8: one call of next on a volume with two grids. -/
theorem grids_iterator_enumerates_witness :
    (1 : Nat) < 2 ^ 31 ∧
    (grids_iter_after ⟨⟨⟨0, []⟩⟩, ⟨⟨0, []⟩, 5⟩, false⟩
      ⟨⟨7, [⟨"density", 1, true⟩, ⟨"velocity", 3, false⟩]⟩⟩ 1).count.item = ((1 : Nat) : Int) ∧
    (grids_iter_after ⟨⟨⟨0, []⟩⟩, ⟨⟨0, []⟩, 5⟩, false⟩
      ⟨⟨7, [⟨"density", 1, true⟩, ⟨"velocity", 3, false⟩]⟩⟩ 1).valid = true ∧
    (rna_Volume_grids_get (grids_iter_after ⟨⟨⟨0, []⟩⟩, ⟨⟨0, []⟩, 5⟩, false⟩
      ⟨⟨7, [⟨"density", 1, true⟩, ⟨"velocity", 3, false⟩]⟩⟩ 1)).data.isSome = true :=
  ⟨by decide,
   (grids_iterator_enumerates ⟨⟨⟨0, []⟩⟩, ⟨⟨0, []⟩, 5⟩, false⟩
      ⟨⟨7, [⟨"density", 1, true⟩, ⟨"velocity", 3, false⟩]⟩⟩ 1 (by decide)).1,
   by decide,
   ((grids_iterator_enumerates ⟨⟨⟨0, []⟩⟩, ⟨⟨0, []⟩, 5⟩, false⟩
      ⟨⟨7, [⟨"density", 1, true⟩, ⟨"velocity", 3, false⟩]⟩⟩ 1 (by decide)).2.2.2.1
        (by decide)).2.2⟩

end RnaVolume

/-! ## The island record -/

namespace TransformConversions

/-- C7: an island record consists of exactly a 3-component `co` and a 3x3
`axismtx`: reading the two members is a one-to-one correspondence between
island records and pairs of a 3-vector and a 3x3 matrix, so a record holds
nothing besides them. -/
theorem TransIslandData_members_bijective (F : Type) :
    Function.Bijective
      (TransIslandData.members : TransIslandData F → (Fin 3 → F) × (Fin 3 → Fin 3 → F)) := by
  constructor
  · intro a b hab
    cases a
    cases b
    simp only [TransIslandData.members, Prod.mk.injEq] at hab
    obtain ⟨h1, h2⟩ := hab
    subst h1
    subst h2
    rfl
  · intro x
    exact ⟨⟨x.1, x.2⟩, rfl⟩

end TransformConversions

/-! ## The property definitions -/

namespace RnaDefine

theorem ldiff_land_self (x f : Nat) : Nat.ldiff x f &&& f = 0 := by
  apply Nat.eq_of_testBit_eq
  intro i
  rw [Nat.testBit_and, Nat.testBit_ldiff, Nat.zero_testBit]
  cases x.testBit i <;> cases f.testBit i <;> rfl

theorem some_orElse_eq {α : Type} (a : α) (b : Option α) : (some a <|> b) = some a := rfl

theorem none_orElse_eq {α : Type} (b : Option α) : (none <|> b) = b := by
  cases b <;> rfl

/-- C5: every property `rna_def_volume_grid` registers on `VolumeGrid`
(`name`, `channels`, `matrix_object`, `is_loaded`) and the `error_message`
and `is_loaded` properties `rna_def_volume_grids` registers on `VolumeGrids`
have the editable flag cleared, a getter and no setter; and among all the
properties the file registers, `active_index` of `VolumeGrids` is the only
one with a setter, a setter being the `set` argument of the
`RNA_def_property_*_funcs` calls; the parameters of the functions of
`VolumeGrid` and `VolumeGrids` have none either. The constants of the RNA headers are
arbitrary; the helper `rna_def_animdata_common` is any function that keeps
the identifier of the struct it is handed and adds no property with a
setter. -/
theorem volume_grid_properties_read_only (c : Constants) (animdata : StructRNA → StructRNA)
    (h_id : ∀ s, (animdata s).identifier = s.identifier)
    (h_set : ∀ s p, p ∈ (animdata s).properties → p.set.isSome = true → p ∈ s.properties) :
    ((RNA_def_volume c animdata {}).structs.map fun s => s.identifier)
        = ["VolumeGrid", "Volume", "VolumeGrids"] ∧
    (∀ s ∈ (RNA_def_volume c animdata {}).structs, s.identifier = "VolumeGrid" →
      (s.properties.map fun p => p.identifier)
          = ["name", "channels", "matrix_object", "is_loaded"] ∧
      ∀ p ∈ s.properties, p.readOnly c) ∧
    (∀ s ∈ (RNA_def_volume c animdata {}).structs, s.identifier = "VolumeGrids" →
      (s.properties.map fun p => p.identifier)
          = ["active_index", "error_message", "is_loaded"] ∧
      ∀ p ∈ s.properties, p.identifier = "error_message" ∨ p.identifier = "is_loaded" →
        p.readOnly c) ∧
    (∀ s ∈ (RNA_def_volume c animdata {}).structs, ∀ p ∈ s.properties,
      (p.set.isSome = true ↔ s.identifier = "VolumeGrids" ∧ p.identifier = "active_index")) ∧
    (∀ s ∈ (RNA_def_volume c animdata {}).structs, s.identifier ≠ "Volume" →
      ∀ f ∈ s.functions, ∀ p ∈ f.params, p.set = none) := by
  simp only [RNA_def_volume, rna_def_volume_grid, rna_def_volume, rna_def_volume_grids,
    RNA_def_struct, RNA_def_struct_ui_text, RNA_def_struct_ui_icon, RNA_def_struct_sdna,
    RNA_def_property, RNA_def_property_clear_flag, RNA_def_property_string_funcs,
    RNA_def_property_int_funcs, RNA_def_property_float_funcs, RNA_def_property_boolean_funcs,
    RNA_def_property_collection_funcs, RNA_def_property_ui_text, RNA_def_property_multi_array,
    RNA_def_property_update, RNA_def_property_pointer_sdna, RNA_def_property_collection_sdna,
    RNA_def_property_struct_type, RNA_def_property_srna, RNA_def_function,
    RNA_def_function_ui_description, RNA_def_function_flag, RNA_def_boolean,
    RNA_def_function_return, rna_def_animdata_common, onStruct, onProp, onFunc,
    List.nil_append, List.cons_append, List.map_cons, List.map_nil, some_orElse_eq,
    none_orElse_eq, String.reduceEq, if_true, if_false, reduceIte]
  refine ⟨?_, ?_, ?_, ?_, ?_⟩
  · simp [h_id]
  · intro s hs hid
    simp only [List.mem_cons, List.mem_nil_iff, or_false] at hs
    rcases hs with rfl | rfl | rfl
    · simp [PropertyRNA.readOnly, ldiff_land_self]
    · rw [h_id] at hid
      simp at hid
    · simp at hid
  · intro s hs hid
    simp only [List.mem_cons, List.mem_nil_iff, or_false] at hs
    rcases hs with rfl | rfl | rfl
    · simp at hid
    · rw [h_id] at hid
      simp at hid
    · simp [PropertyRNA.readOnly, ldiff_land_self]
  · intro s hs p hp
    simp only [List.mem_cons, List.mem_nil_iff, or_false] at hs
    rcases hs with rfl | rfl | rfl
    · simp only [List.mem_cons, List.mem_nil_iff, or_false] at hp
      rcases hp with rfl | rfl | rfl | rfl <;> simp
    · rw [h_id]
      constructor
      · intro hset
        have hmem := h_set _ p hp hset
        simp only [List.mem_cons, List.mem_nil_iff, or_false] at hmem
        rcases hmem with rfl | rfl | rfl | rfl <;> simp at hset
      · intro h
        simp at h
    · simp only [List.mem_cons, List.mem_nil_iff, or_false] at hp
      rcases hp with rfl | rfl | rfl <;> simp
  · intro s hs hid
    simp only [List.mem_cons, List.mem_nil_iff, or_false] at hs
    rcases hs with rfl | rfl | rfl
    · simp
    · rw [h_id] at hid
      simp at hid
    · simp

/-- Witness for C5 with concrete constants and a helper that adds the
`animation_data` property. -/
theorem volume_grid_properties_read_only_witness :
    (∀ s, (animdata_example constants_example s).identifier = s.identifier) ∧
    (∀ s p, p ∈ (animdata_example constants_example s).properties → p.set.isSome = true →
      p ∈ s.properties) ∧
    ((RNA_def_volume constants_example (animdata_example constants_example) {}).structs.map
        fun s => s.identifier) = ["VolumeGrid", "Volume", "VolumeGrids"] :=
  have h_id : ∀ s, (animdata_example constants_example s).identifier = s.identifier :=
    fun _ => rfl
  have h_set : ∀ s p, p ∈ (animdata_example constants_example s).properties →
      p.set.isSome = true → p ∈ s.properties := by
    intro s p hp hset
    simp only [animdata_example, List.mem_append, List.mem_singleton] at hp
    rcases hp with hp | rfl
    · exact hp
    · simp at hset
  ⟨h_id, h_set,
    (volume_grid_properties_read_only constants_example (animdata_example constants_example)
      h_id h_set).1⟩

end RnaDefine
